import Mathlib

/-!
Verification of the Bigtable broker plugin (`brokerapi/brokers/bigtable/broker.go`)
of the GCP service broker.

The Go code is shallowly embedded as follows.

* Go `map[string]string` values become association lists (`StrMap`) with Go map
  semantics: indexing an absent key yields the value type's zero value, and
  assignment replaces an existing binding.
* Go strings are modelled at character granularity (`String` in Lean); the
  source indexes bytes, which coincides with characters on ASCII data.
* `encoding/json.Unmarshal` into `map[string]string` is modelled by an
  executable fuel-bounded decoder (`jsonUnmarshalStringMap`), and
  `encoding/json.Marshal` of the one-field `InstanceInformation` struct by
  `jsonMarshalInstanceInformation`.
* `strconv.Atoi` is modelled by `goAtoi`, and the `int32(...)` conversion by
  two's-complement truncation (`toInt32`).
* The external collaborators (name generator, Bigtable instance-admin client,
  database lookup) are gathered in an `Env` record of outcome functions; the
  provider calls a run issues are returned as an explicit trace
  (`List ProviderCall`) next to the Go-style `(value, error)` result.
-/

namespace GcpServiceBroker

/-- Go `map[string]string`, modelled as an association list whose keys stay
unique because insertion replaces an existing binding. -/
abbrev StrMap := List (String × String)

/-- Lookup of the binding for a key (Go: `v, ok := m[k]`). -/
def StrMap.find? : StrMap → String → Option String
  | [], _ => none
  | (k, v) :: rest, key => if k = key then some v else StrMap.find? rest key

/-- Go map indexing `m[k]`: the stored value, or the string zero value `""`
when the key is absent. -/
def StrMap.index (m : StrMap) (key : String) : String :=
  (StrMap.find? m key).getD ""

/-- Key-membership test (Go: `_, ok := m[k]`). -/
def StrMap.containsKey (m : StrMap) (key : String) : Bool :=
  (StrMap.find? m key).isSome

/-- Go map assignment `m[k] = v`: replaces the binding when the key is
present, otherwise appends a new one. -/
def StrMap.insertGo : StrMap → String → String → StrMap
  | [], key, v => [(key, v)]
  | (k, w) :: rest, key, v =>
    if k = key then (key, v) :: rest else (k, w) :: StrMap.insertGo rest key v

/-- The opening-brace character, written by code so that no brace appears
inside a string literal of this file. -/
def lbrace : Char := '\x7b'

/-- The closing-brace character. -/
def rbrace : Char := '\x7d'

/-- JSON whitespace accepted between tokens. -/
def isJsonWs (c : Char) : Bool :=
  c = ' ' || c = '\t' || c = '\n' || c = '\r'

/-- Drop leading JSON whitespace. -/
def skipJsonWs : List Char → List Char
  | [] => []
  | c :: rest => if isJsonWs c then skipJsonWs rest else c :: rest

/-- Value of a hexadecimal digit, if the character is one. -/
def hexVal? (c : Char) : Option Nat :=
  if '0' ≤ c ∧ c ≤ '9' then some (c.toNat - '0'.toNat)
  else if 'a' ≤ c ∧ c ≤ 'f' then some (c.toNat - 'a'.toNat + 10)
  else if 'A' ≤ c ∧ c ≤ 'F' then some (c.toNat - 'A'.toNat + 10)
  else none

/-- Parse the body of a JSON string literal, the opening quote already
consumed, honouring the escape sequences `encoding/json` accepts; returns the
decoded characters and the input following the closing quote. The fuel
argument bounds recursion and is in practice at least the input length. -/
def parseJsonStringBody : Nat → List Char → Except String (List Char × List Char)
  | 0, _ => Except.error "unexpected end of JSON input"
  | _ + 1, [] => Except.error "unexpected end of JSON input"
  | fuel + 1, c :: rest =>
    if c = '"' then Except.ok ([], rest)
    else if c = '\\' then
      match rest with
      | [] => Except.error "unexpected end of JSON input"
      | e :: r =>
        if e = '"' ∨ e = '\\' ∨ e = '/' then
          match parseJsonStringBody fuel r with
          | Except.error msg => Except.error msg
          | Except.ok (s, rem) => Except.ok (e :: s, rem)
        else if e = 'n' then
          match parseJsonStringBody fuel r with
          | Except.error msg => Except.error msg
          | Except.ok (s, rem) => Except.ok ('\n' :: s, rem)
        else if e = 't' then
          match parseJsonStringBody fuel r with
          | Except.error msg => Except.error msg
          | Except.ok (s, rem) => Except.ok ('\t' :: s, rem)
        else if e = 'r' then
          match parseJsonStringBody fuel r with
          | Except.error msg => Except.error msg
          | Except.ok (s, rem) => Except.ok ('\r' :: s, rem)
        else if e = 'b' then
          match parseJsonStringBody fuel r with
          | Except.error msg => Except.error msg
          | Except.ok (s, rem) => Except.ok (Char.ofNat 8 :: s, rem)
        else if e = 'f' then
          match parseJsonStringBody fuel r with
          | Except.error msg => Except.error msg
          | Except.ok (s, rem) => Except.ok (Char.ofNat 12 :: s, rem)
        else if e = 'u' then
          match r with
          | h1 :: h2 :: h3 :: h4 :: r2 =>
            match hexVal? h1, hexVal? h2, hexVal? h3, hexVal? h4 with
            | some x1, some x2, some x3, some x4 =>
              match parseJsonStringBody fuel r2 with
              | Except.error msg => Except.error msg
              | Except.ok (s, rem) =>
                Except.ok (Char.ofNat (((x1 * 16 + x2) * 16 + x3) * 16 + x4) :: s, rem)
            | _, _, _, _ => Except.error "invalid hexadecimal escape in string literal"
          | _ => Except.error "unexpected end of JSON input"
        else Except.error "invalid escape sequence in string literal"
    else
      match parseJsonStringBody fuel rest with
      | Except.error msg => Except.error msg
      | Except.ok (s, rem) => Except.ok (c :: s, rem)

/-- Parse the members of a JSON object into a string map, the input positioned
just after the opening brace or after a separating comma. Values that are not
JSON strings are rejected, as `json.Unmarshal` into `map[string]string` does;
a duplicated key keeps the last value, as Go map assignment does. -/
def parseJsonMembers : Nat → List Char → StrMap → Except String (StrMap × List Char)
  | 0, _, _ => Except.error "unexpected end of JSON input"
  | fuel + 1, cs, acc =>
    match skipJsonWs cs with
    | [] => Except.error "unexpected end of JSON input"
    | c :: rest =>
      if c = '"' then
        match parseJsonStringBody (fuel + 1) rest with
        | Except.error msg => Except.error msg
        | Except.ok (keyChars, r1) =>
          match skipJsonWs r1 with
          | [] => Except.error "unexpected end of JSON input"
          | c2 :: r2 =>
            if c2 = ':' then
              match skipJsonWs r2 with
              | [] => Except.error "unexpected end of JSON input"
              | c3 :: r3 =>
                if c3 = '"' then
                  match parseJsonStringBody (fuel + 1) r3 with
                  | Except.error msg => Except.error msg
                  | Except.ok (valChars, r4) =>
                    let acc2 := StrMap.insertGo acc (String.mk keyChars) (String.mk valChars)
                    match skipJsonWs r4 with
                    | [] => Except.error "unexpected end of JSON input"
                    | c5 :: r5 =>
                      if c5 = ',' then parseJsonMembers fuel r5 acc2
                      else if c5 = rbrace then Except.ok (acc2, r5)
                      else Except.error "invalid character after object member"
                else Except.error "cannot unmarshal non-string value into Go value of type string"
            else Except.error "invalid character after object key"
      else Except.error "invalid character looking for object key"

/-- Model of `encoding/json.Unmarshal` into a `map[string]string`: accepts a
single JSON object whose values are all strings, surrounded by whitespace.
(The Go decoder additionally accepts the literal `null`, leaving the map nil;
that input is pathological for this broker, which would then write to a nil
map, and is modelled as a decode error.) -/
def jsonUnmarshalStringMap (s : String) : Except String StrMap :=
  match skipJsonWs s.data with
  | [] => Except.error "unexpected end of JSON input"
  | c :: rest =>
    if c = lbrace then
      match skipJsonWs rest with
      | [] => Except.error "unexpected end of JSON input"
      | c2 :: r2 =>
        if c2 = rbrace then
          match skipJsonWs r2 with
          | [] => Except.ok []
          | _ => Except.error "invalid character after top-level value"
        else
          match parseJsonMembers (s.length + 1) rest [] with
          | Except.error msg => Except.error msg
          | Except.ok (m, rem) =>
            match skipJsonWs rem with
            | [] => Except.ok m
            | _ => Except.error "invalid character after top-level value"
    else Except.error "invalid character looking for beginning of value"

/-- JSON escaping of one character, as `encoding/json.Marshal` performs on the
characters that can occur in instance identifiers (control-character and HTML
escaping of exotic input is not modelled). -/
def jsonEscapeChar (c : Char) : List Char :=
  if c = '"' then ['\\', '"']
  else if c = '\\' then ['\\', '\\']
  else [c]

/-- Model of `strconv.Atoi`: an optional sign followed by at least one decimal
digit, with the 64-bit `int` range check. -/
def goAtoi (s : String) : Except String Int :=
  let badSyntaxMsg : String := "strconv.Atoi: parsing \"" ++ s ++ "\": invalid syntax"
  let rangeErr : String := "strconv.Atoi: parsing \"" ++ s ++ "\": value out of range"
  let digitsVal? : List Char → Option Nat := fun ds =>
    ds.foldl (fun acc c =>
      match acc with
      | none => none
      | some n => if '0' ≤ c ∧ c ≤ '9' then some (n * 10 + (c.toNat - '0'.toNat)) else none)
      (some 0)
  match s.data with
  | [] => Except.error badSyntaxMsg
  | c :: rest =>
    let signAndDigits : Bool × List Char :=
      if c = '-' then (true, rest)
      else if c = '+' then (false, rest)
      else (false, c :: rest)
    match signAndDigits with
    | (neg, digits) =>
      if digits = [] then Except.error badSyntaxMsg
      else
        match digitsVal? digits with
        | none => Except.error badSyntaxMsg
        | some n =>
          let v : Int := if neg then -(n : Int) else (n : Int)
          if v < -(2 ^ 63) ∨ 2 ^ 63 - 1 < v then Except.error rangeErr
          else Except.ok v

/-- Go conversion `int32(n)`: two's-complement truncation to 32 bits. -/
def toInt32 (n : Int) : Int :=
  (n + 2 ^ 31) % 2 ^ 32 - 2 ^ 31

/-- Storage-type enum of the external `cloud.google.com/go/bigtable` client
(`type StorageType int` with `SSD StorageType = iota` and `HDD`). -/
inductive StorageType where
  | SSD
  | HDD
deriving DecidableEq, Repr

/-- Zero value of the external `StorageType` enum: `SSD`, whose numeric value
is 0. -/
def StorageType.zero : StorageType := StorageType.SSD

/-- The package-level `StorageTypes` lookup table, read with Go map-index
semantics: an unrecognized key yields the value type's zero value. -/
def StorageTypes (key : String) : StorageType :=
  if key = "SSD" then StorageType.SSD
  else if key = "HDD" then StorageType.HDD
  else StorageType.zero

/-- Modelled from the spec: `models.ProvisionDetails` (the `models` package is
not part of the sources) carries the free-form JSON blob `RawParameters`. -/
structure ProvisionDetails where
  RawParameters : String

/-- Modelled from the spec: `models.PlanDetails` carries `Features`, a
JSON-encoded mapping of plan-level configuration. -/
structure PlanDetails where
  Features : String

/-- Modelled from the spec: `models.DeprovisionDetails`; no field of it is
read by this broker. -/
structure DeprovisionDetails where

/-- Modelled from the spec: `models.ServiceInstanceDetails`, the generic
persisted record with fields `Name`, `Url`, `Location` and `OtherDetails`.
Its Go zero value has every field equal to the empty string. -/
structure ServiceInstanceDetails where
  Name : String
  Url : String
  Location : String
  OtherDetails : String
deriving DecidableEq, Repr

/-- The Go zero value `models.ServiceInstanceDetails\x7b\x7d`. -/
def ServiceInstanceDetails.zero : ServiceInstanceDetails :=
  ⟨"", "", "", ""⟩

/-- Modelled from the spec: `models.ErrInstanceDoesNotExist`, the distinct
"instance does not exist" error value. -/
def ErrInstanceDoesNotExist : String := "instance does not exist"

/-- Error value of the external `gorm` persistence library when a lookup
matches no record. -/
def gormErrRecordNotFound : String := "record not found"

/-- The shape serialized into `OtherDetails` (`InstanceInformation` in the
source): a single field tagged `instance_id`. -/
structure InstanceInformation where
  InstanceId : String

/-- Model of `encoding/json.Marshal` applied to an `InstanceInformation`:
produces the object with the single `instance_id` member. Marshalling a
struct of one string field cannot fail, so the result is always `ok`. -/
def jsonMarshalInstanceInformation (ii : InstanceInformation) : Except String String :=
  Except.ok (String.mk
    (lbrace :: "\"instance_id\":\"".data ++
      (ii.InstanceId.data.map jsonEscapeChar).flatten ++ '"' :: [rbrace]))

/-- The `googlebigtable.InstanceConf` configuration passed to the provider's
create-instance call. -/
structure InstanceConf where
  InstanceId : String
  ClusterId : String
  NumNodes : Int
  StorageType : StorageType
  Zone : String
  DisplayName : String
deriving DecidableEq, Repr

/-- A remote call issued to the cloud instance-administration API. -/
inductive ProviderCall where
  | createInstance (ic : InstanceConf)
  | deleteInstance (name : String)
deriving DecidableEq, Repr

/-- Outcomes of the external collaborators of one broker call: the generated
default instance name, the result of opening the instance-admin client, the
error (if any) of the provider's create and delete calls, and the persistence
lookup by instance id. -/
structure Env where
  generatedName : String
  newInstanceAdminClient : Except String Unit
  createInstance : InstanceConf → Option String
  dbFirstByID : String → Except String ServiceInstanceDetails
  deleteInstance : String → Option String

/-- Result shape of `Provision`: the provider calls issued, then the Go-style
pair of a `ServiceInstanceDetails` value and an optional error message. -/
abbrev ProvisionRet := List ProviderCall × ServiceInstanceDetails × Option String

/-- Body of `BigTableBroker.Provision` after the raw parameters have been
decoded into `params0` (source lines 66 to 139): default the name, decode the
plan features, open the client, derive and possibly override the cluster id,
parse the node count, default zone and display name, issue the create call and
build the returned record. -/
def provisionWithParams (env : Env) (_instanceId : String) (params0 : StrMap)
    (plan : PlanDetails) : ProvisionRet :=
  let params : StrMap :=
    if StrMap.containsKey params0 "name" then params0
    else StrMap.insertGo params0 "name" env.generatedName
  match jsonUnmarshalStringMap plan.Features with
  | Except.error e =>
    ([], ServiceInstanceDetails.zero, some ("Error unmarshalling plan features: " ++ e))
  | Except.ok planDetails =>
    match env.newInstanceAdminClient with
    | Except.error e =>
      ([], ServiceInstanceDetails.zero, some ("Error creating bigtable client: " ++ e))
    | Except.ok _ =>
      let clusterId : String :=
        if (StrMap.index params "name").length > 20 then
          (StrMap.index params "name").take 20 ++ "-cluster"
        else
          StrMap.index params "name" ++ "-cluster"
      let clusterId : String :=
        match StrMap.find? params "cluster_id" with
        | some userClusterId => userClusterId
        | none => clusterId
      match goAtoi (StrMap.index planDetails "num_nodes") with
      | Except.error e =>
        ([], ServiceInstanceDetails.zero, some ("Error converting num_nodes to int: " ++ e))
      | Except.ok numNodes =>
        let zone : String :=
          match StrMap.find? params "zone" with
          | some userZone => userZone
          | none => "us-east1-b"
        let displayName : String :=
          match StrMap.find? params "display_name" with
          | some userDisplayName => userDisplayName
          | none => StrMap.index params "name"
        let ic : InstanceConf :=
          { InstanceId := StrMap.index params "name"
            ClusterId := clusterId
            NumNodes := toInt32 numNodes
            StorageType := StorageTypes (StrMap.index planDetails "storage_type")
            Zone := zone
            DisplayName := displayName }
        match env.createInstance ic with
        | some e =>
          ([ProviderCall.createInstance ic], ServiceInstanceDetails.zero,
            some ("Error creating new instance: " ++ e))
        | none =>
          let ii : InstanceInformation := { InstanceId := StrMap.index params "name" }
          match jsonMarshalInstanceInformation ii with
          | Except.error e =>
            ([ProviderCall.createInstance ic], ServiceInstanceDetails.zero,
              some ("Error marshalling other details: " ++ e))
          | Except.ok otherDetails =>
            ([ProviderCall.createInstance ic],
              { Name := StrMap.index params "name"
                Url := ""
                Location := ""
                OtherDetails := otherDetails },
              none)

/-- `BigTableBroker.Provision` (source lines 55 to 139): an empty raw
parameter blob is treated as an empty mapping, a non-empty blob is decoded
(failure aborts with an unmarshalling error), then resolution and the provider
call proceed as in `provisionWithParams`. -/
def Provision (env : Env) (instanceId : String) (details : ProvisionDetails)
    (plan : PlanDetails) : ProvisionRet :=
  if details.RawParameters.length = 0 then
    provisionWithParams env instanceId [] plan
  else
    match jsonUnmarshalStringMap details.RawParameters with
    | Except.error e =>
      ([], ServiceInstanceDetails.zero, some ("Error unmarshalling parameters: " ++ e))
    | Except.ok params0 => provisionWithParams env instanceId params0 plan

/-- `BigTableBroker.Deprovision` (source lines 142 to 160): open the admin
client, look up the persisted record for the caller-supplied instance id (any
lookup failure is reported as `ErrInstanceDoesNotExist`), and delete the
instance named by the record. -/
def Deprovision (env : Env) (instanceID : String) (_details : DeprovisionDetails) :
    List ProviderCall × Option String :=
  match env.newInstanceAdminClient with
  | Except.error e => ([], some ("Error creating BigQuery client: " ++ e))
  | Except.ok _ =>
    match env.dbFirstByID instanceID with
    | Except.error _ => ([], some ErrInstanceDoesNotExist)
    | Except.ok instanceRec =>
      match env.deleteInstance instanceRec.Name with
      | some e =>
        ([ProviderCall.deleteInstance instanceRec.Name], some ("Error deleting dataset: " ++ e))
      | none => ([ProviderCall.deleteInstance instanceRec.Name], none)

/-! Helper lemmas shared by the claim theorems. -/

/-- Inserting under one key leaves the lookup of a different key unchanged. -/
theorem StrMap.find?_insertGo_of_ne (m : StrMap) (key k v : String) (h : key ≠ k) :
    StrMap.find? (StrMap.insertGo m key v) k = StrMap.find? m k := by
  induction m with
  | nil => simp [StrMap.insertGo, StrMap.find?, h]
  | cons p rest ih =>
    obtain ⟨pk, pv⟩ := p
    by_cases hk : pk = key
    · subst hk
      simp [StrMap.insertGo, StrMap.find?, h]
    · simp [StrMap.insertGo, StrMap.find?, hk, ih]

/-- A string is empty exactly when its length is zero. -/
theorem string_length_eq_zero_iff (s : String) : s.length = 0 ↔ s = "" := by
  cases s with
  | mk data =>
    cases data with
    | nil => simp
    | cons c cs =>
      simp only [String.length]
      constructor
      · intro h
        simp at h
      · intro h
        have hd := congrArg String.data h
        simp at hd

/-- Every result of `provisionWithParams` either carries no error or carries
the zero `ServiceInstanceDetails`. -/
theorem provisionWithParams_error_zero (env : Env) (i : String) (params0 : StrMap)
    (plan : PlanDetails) :
    (provisionWithParams env i params0 plan).2.2 = none ∨
      (provisionWithParams env i params0 plan).2.1 = ServiceInstanceDetails.zero := by
  simp only [provisionWithParams]
  split
  · right; rfl
  · split
    · right; rfl
    · split
      · right; rfl
      · split
        · right; rfl
        · split
          · right; rfl
          · left; rfl

/-- Every result of `Provision` either carries no error or carries the zero
`ServiceInstanceDetails`. -/
theorem provision_error_zero (env : Env) (i : String) (d : ProvisionDetails)
    (plan : PlanDetails) :
    (Provision env i d plan).2.2 = none ∨
      (Provision env i d plan).2.1 = ServiceInstanceDetails.zero := by
  unfold Provision
  split
  · exact provisionWithParams_error_zero env i [] plan
  · split
    · right; rfl
    · exact provisionWithParams_error_zero env i _ plan

/-- The create-instance configuration that the resolution block of
`Provision` produces from already-decoded request parameters and plan
features, written with the same lets and matches as `provisionWithParams` so
the two are definitionally aligned. -/
def resolvedConf (env : Env) (params0 : StrMap) (planDetails : StrMap) (numNodes : Int) :
    InstanceConf :=
  let params : StrMap :=
    if StrMap.containsKey params0 "name" then params0
    else StrMap.insertGo params0 "name" env.generatedName
  let clusterId : String :=
    if (StrMap.index params "name").length > 20 then
      (StrMap.index params "name").take 20 ++ "-cluster"
    else
      StrMap.index params "name" ++ "-cluster"
  let clusterId : String :=
    match StrMap.find? params "cluster_id" with
    | some userClusterId => userClusterId
    | none => clusterId
  let zone : String :=
    match StrMap.find? params "zone" with
    | some userZone => userZone
    | none => "us-east1-b"
  let displayName : String :=
    match StrMap.find? params "display_name" with
    | some userDisplayName => userDisplayName
    | none => StrMap.index params "name"
  { InstanceId := StrMap.index params "name"
    ClusterId := clusterId
    NumNodes := toInt32 numNodes
    StorageType := StorageTypes (StrMap.index planDetails "storage_type")
    Zone := zone
    DisplayName := displayName }

/-- When the plan features decode, the client opens and the node count
parses, `provisionWithParams` issues exactly one provider call: a create with
the resolved configuration. -/
theorem provisionWithParams_calls (env : Env) (i : String) (params0 : StrMap)
    (plan : PlanDetails) (planD : StrMap) (n : Int)
    (hplan : jsonUnmarshalStringMap plan.Features = Except.ok planD)
    (hclient : env.newInstanceAdminClient = Except.ok ())
    (hnum : goAtoi (StrMap.index planD "num_nodes") = Except.ok n) :
    (provisionWithParams env i params0 plan).1 =
      [ProviderCall.createInstance (resolvedConf env params0 planD n)] := by
  unfold provisionWithParams resolvedConf
  simp only [hplan, hclient, hnum]
  split
  · rfl
  · rfl

/-- A concrete environment whose client opens, whose create and delete calls
succeed, and whose persistence lookup finds no record. -/
def envOk : Env :=
  ⟨"generated-name", Except.ok (), fun _ => none,
    fun _ => Except.error gormErrRecordNotFound, fun _ => none⟩

/-- A concrete environment whose persistence lookup returns a record named
`foo` for every instance id. -/
def envFoo : Env :=
  ⟨"generated-name", Except.ok (), fun _ => none,
    fun _ => Except.ok ⟨"foo", "", "", "\x7b\"instance_id\":\"foo\"\x7d"⟩, fun _ => none⟩

/-- The create-instance configuration that the C1 scenario resolves to. -/
def mytableConf : InstanceConf :=
  { InstanceId := "mytable"
    ClusterId := "mytable-cluster"
    NumNodes := 3
    StorageType := StorageType.SSD
    Zone := "us-east1-b"
    DisplayName := "mytable" }

/-- C1: with raw parameters containing only name `mytable` and plan features
num_nodes `3`, storage_type `SSD`, Provision issues a create-instance call
with instance name `mytable`, cluster id `mytable-cluster`, node count 3,
SSD storage, zone `us-east1-b` and display name `mytable`, and on a
successful create returns a `ServiceInstanceDetails` named `mytable` whose
`OtherDetails` JSON-decodes to the map `instance_id = mytable`. -/
theorem C1_provision_mytable (env : Env) (instanceId : String)
    (hclient : env.newInstanceAdminClient = Except.ok ())
    (hcreate : ∀ ic, env.createInstance ic = none) :
    Provision env instanceId ⟨"\x7b\"name\":\"mytable\"\x7d"⟩
        ⟨"\x7b\"num_nodes\":\"3\",\"storage_type\":\"SSD\"\x7d"⟩ =
      ([ProviderCall.createInstance mytableConf],
        { Name := "mytable", Url := "", Location := "",
          OtherDetails := "\x7b\"instance_id\":\"mytable\"\x7d" }, none) ∧
      jsonUnmarshalStringMap "\x7b\"instance_id\":\"mytable\"\x7d" =
        Except.ok [("instance_id", "mytable")] := by
  refine ⟨?_, by rfl⟩
  unfold Provision provisionWithParams
  rw [hclient]
  simp only [hcreate]
  rfl

/-- Closed witness for C1 at the concrete environment `envOk`. -/
theorem C1_provision_mytable_witness :
    Provision envOk "test-instance" ⟨"\x7b\"name\":\"mytable\"\x7d"⟩
        ⟨"\x7b\"num_nodes\":\"3\",\"storage_type\":\"SSD\"\x7d"⟩ =
      ([ProviderCall.createInstance mytableConf],
        { Name := "mytable", Url := "", Location := "",
          OtherDetails := "\x7b\"instance_id\":\"mytable\"\x7d" }, none) ∧
      jsonUnmarshalStringMap "\x7b\"instance_id\":\"mytable\"\x7d" =
        Except.ok [("instance_id", "mytable")] :=
  C1_provision_mytable envOk "test-instance" rfl (fun _ => rfl)

/-- C3: when the admin client opens and the persistence lookup finds no
matching record, Deprovision returns the "instance does not exist" error and
issues no provider call. -/
theorem C3_deprovision_absent (env : Env) (instanceID : String)
    (d : DeprovisionDetails)
    (hclient : env.newInstanceAdminClient = Except.ok ())
    (hdb : env.dbFirstByID instanceID = Except.error gormErrRecordNotFound) :
    Deprovision env instanceID d = ([], some ErrInstanceDoesNotExist) := by
  unfold Deprovision
  rw [hclient, hdb]

/-- Closed witness for C3 at the concrete environment `envOk`. -/
theorem C3_deprovision_absent_witness :
    Deprovision envOk "missing-id" ⟨⟩ = ([], some ErrInstanceDoesNotExist) :=
  C3_deprovision_absent envOk "missing-id" ⟨⟩ rfl rfl

/-- C4: when the persistence lookup succeeds, the provider delete call is
issued with the `Name` stored in the persisted record, not with the
caller-supplied instance id. -/
theorem C4_deprovision_uses_persisted_name (env : Env) (instanceID : String)
    (d : DeprovisionDetails) (r : ServiceInstanceDetails)
    (hclient : env.newInstanceAdminClient = Except.ok ())
    (hdb : env.dbFirstByID instanceID = Except.ok r) :
    (Deprovision env instanceID d).1 = [ProviderCall.deleteInstance r.Name] := by
  unfold Deprovision
  rw [hclient, hdb]
  cases hdel : env.deleteInstance r.Name <;> simp [hdel]

/-- Closed witness for C4: the caller-supplied id differs from the persisted
name `foo`, and the delete call still targets `foo`. -/
theorem C4_deprovision_uses_persisted_name_witness :
    (Deprovision envFoo "caller-supplied-id" ⟨⟩).1 = [ProviderCall.deleteInstance "foo"] :=
  C4_deprovision_uses_persisted_name envFoo "caller-supplied-id" ⟨⟩
    ⟨"foo", "", "", "\x7b\"instance_id\":\"foo\"\x7d"⟩ rfl rfl

/-- C10: every failure of the persistence lookup, whatever its error value,
is reported by Deprovision as the "instance does not exist" error. -/
theorem C10_any_db_error_is_does_not_exist (env : Env) (instanceID : String)
    (d : DeprovisionDetails) (e : String)
    (hclient : env.newInstanceAdminClient = Except.ok ())
    (hdb : env.dbFirstByID instanceID = Except.error e) :
    Deprovision env instanceID d = ([], some ErrInstanceDoesNotExist) := by
  unfold Deprovision
  rw [hclient, hdb]

/-- Closed witness for C10 at a lookup failure that is not a missing record
but a connection breakdown. -/
theorem C10_any_db_error_is_does_not_exist_witness :
    Deprovision
        ⟨"generated-name", Except.ok (), fun _ => none,
          fun _ => Except.error "driver: bad connection", fun _ => none⟩
        "some-id" ⟨⟩ = ([], some ErrInstanceDoesNotExist) :=
  C10_any_db_error_is_does_not_exist _ "some-id" ⟨⟩ "driver: bad connection" rfl rfl

/-- C2: when the request parameters carry a name and no cluster_id, the
configuration passed to the create call derives its cluster id from the name:
the first 20 characters plus `-cluster` when the name is longer than 20
characters, the full name plus `-cluster` otherwise. -/
theorem C2_derived_cluster_id (env : Env) (i : String) (params0 : StrMap)
    (plan : PlanDetails) (planD : StrMap) (name : String) (n : Int)
    (hname : StrMap.find? params0 "name" = some name)
    (hnc : StrMap.find? params0 "cluster_id" = none)
    (hplan : jsonUnmarshalStringMap plan.Features = Except.ok planD)
    (hclient : env.newInstanceAdminClient = Except.ok ())
    (hnum : goAtoi (StrMap.index planD "num_nodes") = Except.ok n) :
    ∃ ic : InstanceConf,
      (provisionWithParams env i params0 plan).1 = [ProviderCall.createInstance ic] ∧
      ic.ClusterId =
        (if name.length > 20 then name.take 20 ++ "-cluster" else name ++ "-cluster") := by
  refine ⟨resolvedConf env params0 planD n,
    provisionWithParams_calls env i params0 plan planD n hplan hclient hnum, ?_⟩
  unfold resolvedConf
  simp [StrMap.containsKey, StrMap.index, hname, hnc]

/-- Closed witness for C2 at a 26-character name: the cluster id is the first
20 characters followed by `-cluster`. -/
theorem C2_derived_cluster_id_witness :
    ∃ ic : InstanceConf,
      (provisionWithParams envOk "i" [("name", "abcdefghijklmnopqrstuvwxyz")]
          ⟨"\x7b\"num_nodes\":\"3\"\x7d"⟩).1 = [ProviderCall.createInstance ic] ∧
      ic.ClusterId =
        (if ("abcdefghijklmnopqrstuvwxyz" : String).length > 20 then
          ("abcdefghijklmnopqrstuvwxyz" : String).take 20 ++ "-cluster"
        else ("abcdefghijklmnopqrstuvwxyz" : String) ++ "-cluster") :=
  C2_derived_cluster_id envOk "i" [("name", "abcdefghijklmnopqrstuvwxyz")]
    ⟨"\x7b\"num_nodes\":\"3\"\x7d"⟩ [("num_nodes", "3")] "abcdefghijklmnopqrstuvwxyz" 3
    rfl rfl (by rfl) rfl (by rfl)

/-- C5: a num_nodes plan feature of `4` resolves to node count 4 in the
issued configuration, and a value that does not parse as an integer aborts
the whole resolution with the conversion error, issuing no provider call and
returning no fallback value. -/
theorem C5_num_nodes_resolution :
    (∀ (env : Env) (i : String) (params0 : StrMap) (plan : PlanDetails) (planD : StrMap),
        jsonUnmarshalStringMap plan.Features = Except.ok planD →
        env.newInstanceAdminClient = Except.ok () →
        StrMap.index planD "num_nodes" = "4" →
        ∃ ic : InstanceConf,
          (provisionWithParams env i params0 plan).1 = [ProviderCall.createInstance ic] ∧
          ic.NumNodes = 4) ∧
    (∀ (env : Env) (i : String) (params0 : StrMap) (plan : PlanDetails) (planD : StrMap)
        (e : String),
        jsonUnmarshalStringMap plan.Features = Except.ok planD →
        env.newInstanceAdminClient = Except.ok () →
        goAtoi (StrMap.index planD "num_nodes") = Except.error e →
        provisionWithParams env i params0 plan =
          ([], ServiceInstanceDetails.zero,
            some ("Error converting num_nodes to int: " ++ e))) := by
  constructor
  · intro env i params0 plan planD hplan hclient h4
    have hnum : goAtoi (StrMap.index planD "num_nodes") = Except.ok 4 := by rw [h4]; rfl
    exact ⟨resolvedConf env params0 planD 4,
      provisionWithParams_calls env i params0 plan planD 4 hplan hclient hnum, by rfl⟩
  · intro env i params0 plan planD e hplan hclient herr
    unfold provisionWithParams
    simp only [hplan, hclient, herr]

/-- Closed witness for C5: plan features with num_nodes `4` resolve to 4;
plan features with num_nodes `abc` fail with the conversion error. -/
theorem C5_num_nodes_resolution_witness :
    (∃ ic : InstanceConf,
      (provisionWithParams envOk "i" [("name", "t")]
          ⟨"\x7b\"num_nodes\":\"4\"\x7d"⟩).1 = [ProviderCall.createInstance ic] ∧
      ic.NumNodes = 4) ∧
    provisionWithParams envOk "i" [("name", "t")] ⟨"\x7b\"num_nodes\":\"abc\"\x7d"⟩ =
      ([], ServiceInstanceDetails.zero,
        some ("Error converting num_nodes to int: strconv.Atoi: parsing \"abc\": invalid syntax")) :=
  ⟨C5_num_nodes_resolution.1 envOk "i" [("name", "t")] ⟨"\x7b\"num_nodes\":\"4\"\x7d"⟩
      [("num_nodes", "4")] (by rfl) rfl (by rfl),
    C5_num_nodes_resolution.2 envOk "i" [("name", "t")] ⟨"\x7b\"num_nodes\":\"abc\"\x7d"⟩
      [("num_nodes", "abc")] "strconv.Atoi: parsing \"abc\": invalid syntax"
      (by rfl) rfl (by rfl)⟩

/-- C6: a storage_type plan feature of `SSD` resolves to the SSD enum value
in the issued configuration, `HDD` resolves to HDD, and any other value,
including the empty string an absent key indexes to, resolves to the lookup
table's zero-value storage type rather than an error. -/
theorem C6_storage_type_resolution :
    (∀ (env : Env) (i : String) (params0 : StrMap) (plan : PlanDetails) (planD : StrMap)
        (n : Int),
        jsonUnmarshalStringMap plan.Features = Except.ok planD →
        env.newInstanceAdminClient = Except.ok () →
        goAtoi (StrMap.index planD "num_nodes") = Except.ok n →
        StrMap.index planD "storage_type" = "SSD" →
        ∃ ic : InstanceConf,
          (provisionWithParams env i params0 plan).1 = [ProviderCall.createInstance ic] ∧
          ic.StorageType = StorageType.SSD) ∧
    (∀ (env : Env) (i : String) (params0 : StrMap) (plan : PlanDetails) (planD : StrMap)
        (n : Int),
        jsonUnmarshalStringMap plan.Features = Except.ok planD →
        env.newInstanceAdminClient = Except.ok () →
        goAtoi (StrMap.index planD "num_nodes") = Except.ok n →
        StrMap.index planD "storage_type" = "HDD" →
        ∃ ic : InstanceConf,
          (provisionWithParams env i params0 plan).1 = [ProviderCall.createInstance ic] ∧
          ic.StorageType = StorageType.HDD) ∧
    (∀ (env : Env) (i : String) (params0 : StrMap) (plan : PlanDetails) (planD : StrMap)
        (n : Int),
        jsonUnmarshalStringMap plan.Features = Except.ok planD →
        env.newInstanceAdminClient = Except.ok () →
        goAtoi (StrMap.index planD "num_nodes") = Except.ok n →
        StrMap.index planD "storage_type" ≠ "SSD" →
        StrMap.index planD "storage_type" ≠ "HDD" →
        ∃ ic : InstanceConf,
          (provisionWithParams env i params0 plan).1 = [ProviderCall.createInstance ic] ∧
          ic.StorageType = StorageType.zero) := by
  refine ⟨?_, ?_, ?_⟩
  · intro env i params0 plan planD n hplan hclient hnum hs
    refine ⟨resolvedConf env params0 planD n,
      provisionWithParams_calls env i params0 plan planD n hplan hclient hnum, ?_⟩
    unfold resolvedConf StorageTypes
    simp [hs]
  · intro env i params0 plan planD n hplan hclient hnum hs
    refine ⟨resolvedConf env params0 planD n,
      provisionWithParams_calls env i params0 plan planD n hplan hclient hnum, ?_⟩
    unfold resolvedConf StorageTypes
    simp [hs]
  · intro env i params0 plan planD n hplan hclient hnum hs1 hs2
    refine ⟨resolvedConf env params0 planD n,
      provisionWithParams_calls env i params0 plan planD n hplan hclient hnum, ?_⟩
    unfold resolvedConf StorageTypes
    simp [hs1, hs2]

/-- Closed witness for C6: plan features with storage_type `SSD`, `HDD` and
absent are used in turn; the absent key indexes to the empty string. -/
theorem C6_storage_type_resolution_witness :
    (∃ ic : InstanceConf,
      (provisionWithParams envOk "i" [("name", "t")]
          ⟨"\x7b\"num_nodes\":\"3\",\"storage_type\":\"SSD\"\x7d"⟩).1 =
        [ProviderCall.createInstance ic] ∧
      ic.StorageType = StorageType.SSD) ∧
    (∃ ic : InstanceConf,
      (provisionWithParams envOk "i" [("name", "t")]
          ⟨"\x7b\"num_nodes\":\"3\",\"storage_type\":\"HDD\"\x7d"⟩).1 =
        [ProviderCall.createInstance ic] ∧
      ic.StorageType = StorageType.HDD) ∧
    (∃ ic : InstanceConf,
      (provisionWithParams envOk "i" [("name", "t")]
          ⟨"\x7b\"num_nodes\":\"3\"\x7d"⟩).1 = [ProviderCall.createInstance ic] ∧
      ic.StorageType = StorageType.zero) :=
  ⟨C6_storage_type_resolution.1 envOk "i" [("name", "t")]
      ⟨"\x7b\"num_nodes\":\"3\",\"storage_type\":\"SSD\"\x7d"⟩
      [("num_nodes", "3"), ("storage_type", "SSD")] 3 (by rfl) rfl (by rfl) (by rfl),
    C6_storage_type_resolution.2.1 envOk "i" [("name", "t")]
      ⟨"\x7b\"num_nodes\":\"3\",\"storage_type\":\"HDD\"\x7d"⟩
      [("num_nodes", "3"), ("storage_type", "HDD")] 3 (by rfl) rfl (by rfl) (by rfl),
    C6_storage_type_resolution.2.2 envOk "i" [("name", "t")]
      ⟨"\x7b\"num_nodes\":\"3\"\x7d"⟩ [("num_nodes", "3")] 3 (by rfl) rfl (by rfl)
      (by decide) (by decide)⟩

/-- C7: a cluster_id key supplied in the request parameters becomes the
cluster id of the issued configuration, overriding the name-derived value
whatever the name is, present or generated. -/
theorem C7_user_cluster_id_override (env : Env) (i : String) (params0 : StrMap)
    (plan : PlanDetails) (planD : StrMap) (c : String) (n : Int)
    (hcluster : StrMap.find? params0 "cluster_id" = some c)
    (hplan : jsonUnmarshalStringMap plan.Features = Except.ok planD)
    (hclient : env.newInstanceAdminClient = Except.ok ())
    (hnum : goAtoi (StrMap.index planD "num_nodes") = Except.ok n) :
    ∃ ic : InstanceConf,
      (provisionWithParams env i params0 plan).1 = [ProviderCall.createInstance ic] ∧
      ic.ClusterId = c := by
  refine ⟨resolvedConf env params0 planD n,
    provisionWithParams_calls env i params0 plan planD n hplan hclient hnum, ?_⟩
  unfold resolvedConf
  by_cases hn : StrMap.containsKey params0 "name"
  · simp [hn, hcluster]
  · simp [hn, StrMap.find?_insertGo_of_ne params0 "name" "cluster_id" env.generatedName
      (by decide), hcluster]

/-- Closed witness for C7 at a 30-character name whose derived id would be
truncated: the supplied cluster_id wins. -/
theorem C7_user_cluster_id_override_witness :
    ∃ ic : InstanceConf,
      (provisionWithParams envOk "i"
          [("name", "aaaaaaaaaaaaaaaaaaaaaaaaaaaaaa"), ("cluster_id", "my-own-cluster")]
          ⟨"\x7b\"num_nodes\":\"3\"\x7d"⟩).1 = [ProviderCall.createInstance ic] ∧
      ic.ClusterId = "my-own-cluster" :=
  C7_user_cluster_id_override envOk "i"
    [("name", "aaaaaaaaaaaaaaaaaaaaaaaaaaaaaa"), ("cluster_id", "my-own-cluster")]
    ⟨"\x7b\"num_nodes\":\"3\"\x7d"⟩ [("num_nodes", "3")] "my-own-cluster" 3
    (by rfl) (by rfl) rfl (by rfl)

/-- C8: an empty raw-parameter blob is treated as the empty mapping and
resolution proceeds without a decode error, while a non-empty blob that does
not decode as a string-to-string mapping aborts Provision with the decode
error naming the cause. -/
theorem C8_raw_parameter_decoding :
    (∀ (env : Env) (i : String) (d : ProvisionDetails) (plan : PlanDetails),
        d.RawParameters = "" →
        Provision env i d plan = provisionWithParams env i [] plan) ∧
    (∀ (env : Env) (i : String) (d : ProvisionDetails) (plan : PlanDetails) (e : String),
        d.RawParameters ≠ "" →
        jsonUnmarshalStringMap d.RawParameters = Except.error e →
        Provision env i d plan =
          ([], ServiceInstanceDetails.zero,
            some ("Error unmarshalling parameters: " ++ e))) := by
  constructor
  · intro env i d plan h
    unfold Provision
    rw [if_pos ((string_length_eq_zero_iff d.RawParameters).mpr h)]
  · intro env i d plan e hne hdec
    unfold Provision
    rw [if_neg (fun h0 => hne ((string_length_eq_zero_iff d.RawParameters).mp h0)), hdec]

/-- Closed witness for C8: an empty blob proceeds as the empty mapping; the
malformed blob `bad` fails with the decode error. -/
theorem C8_raw_parameter_decoding_witness :
    Provision envOk "i" ⟨""⟩ ⟨"\x7b\"num_nodes\":\"3\"\x7d"⟩ =
      provisionWithParams envOk "i" [] ⟨"\x7b\"num_nodes\":\"3\"\x7d"⟩ ∧
    Provision envOk "i" ⟨"bad"⟩ ⟨"\x7b\"num_nodes\":\"3\"\x7d"⟩ =
      ([], ServiceInstanceDetails.zero,
        some ("Error unmarshalling parameters: invalid character looking for beginning of value")) :=
  ⟨C8_raw_parameter_decoding.1 envOk "i" ⟨""⟩ ⟨"\x7b\"num_nodes\":\"3\"\x7d"⟩ rfl,
    C8_raw_parameter_decoding.2 envOk "i" ⟨"bad"⟩ ⟨"\x7b\"num_nodes\":\"3\"\x7d"⟩
      "invalid character looking for beginning of value" (by decide) (by rfl)⟩

/-- C9: whenever Provision returns an error, the ServiceInstanceDetails value
returned next to it is the zero value with every field empty. -/
theorem C9_error_returns_zero_details (env : Env) (i : String) (d : ProvisionDetails)
    (plan : PlanDetails) (msg : String)
    (h : (Provision env i d plan).2.2 = some msg) :
    (Provision env i d plan).2.1 = ServiceInstanceDetails.zero := by
  rcases provision_error_zero env i d plan with h0 | h0
  · rw [h] at h0
    simp at h0
  · exact h0

/-- Closed witness for C9 at a run whose plan features fail to decode. -/
theorem C9_error_returns_zero_details_witness :
    (Provision envOk "i" ⟨""⟩ ⟨""⟩).2.2 =
      some "Error unmarshalling plan features: unexpected end of JSON input" ∧
    (Provision envOk "i" ⟨""⟩ ⟨""⟩).2.1 = ServiceInstanceDetails.zero :=
  ⟨by rfl, C9_error_returns_zero_details envOk "i" ⟨""⟩ ⟨""⟩
    "Error unmarshalling plan features: unexpected end of JSON input" (by rfl)⟩

end GcpServiceBroker
